import Mathlib

/-!
Shallow embedding of the payment-job orchestration code of the
Hardware-Implementation-of-Cardano repository.

The embedded sources are:
* `Project-dagadaga/blockchain/src/mock_payment_service.py` (the mock service:
  `send_payment`, `simulate_confirmation_process`, `cancel_job`,
  `simulate_smart_contract_execution`, `poll_tx_status`);
* `Project-dagadaga/blockchain/src/real_payment_service.py` (the real service:
  `send_payment`, `process_transaction_confirmation`, `get_transaction_status`);
* `src/blockchain/payment_service.py` (`PaymentService.create_payment_job`,
  `PaymentService.process_payment`, `PaymentService.get_job_status`);
* `Project-dagadaga/blockchain/smart_contract_payment.py`
  (`SmartContractPaymentService.initiate_payment`).

Python dicts are modelled as association lists in insertion order (matching
dict iteration order); background tasks are modelled as explicit operations
applied to the store; wall-clock instants are `Nat` seconds; random draws and
network answers are explicit parameters.
-/

/-- Caller-supplied metadata: an opaque key-value map (`metadata` in the
request models). -/
abbrev MetaMap := List (String × String)

/-- The status strings that ever appear in `mock_jobs[...]["status"]` in
`mock_payment_service.py`, plus `submitted` (named by the spec's state machine
but, as proved below, never stored by the mock service). -/
inductive MStatus where
  | pending
  | lockedToContract
  | submitted
  | confirmed
  | failed
  | cancelled
deriving DecidableEq, Repr

/-- One entry of the `mock_jobs` dict of `mock_payment_service.py`
(fields of the dicts built at lines 155-170 and 194-208, together with the
fields added by later updates: `error`, `execution_tx_hash`). -/
structure MockJob where
  jobId : String
  txHash : String
  status : MStatus
  confirmations : Nat
  createdAt : Nat
  confirmedAt : Option Nat
  fromAddress : String
  toAddress : String
  amount : Int
  metadata : Option MetaMap
  blockHeight : Option Nat
  fee : Option Nat
  smartContract : Bool
  contractAddress : Option String
  executionTxHash : Option String
  errorMsg : Option String
deriving DecidableEq, Repr

/-- The `mock_jobs` dict, as an association list in insertion order. -/
abbrev MockStore := List (String × MockJob)

/-- Read access `job_id in mock_jobs` / `mock_jobs[job_id]`. -/
def lookupJob : MockStore → String → Option MockJob
  | [], _ => none
  | (k, j) :: rest, id => if k = id then some j else lookupJob rest id

/-- In-place mutation of one dict entry (`mock_jobs[job_id]["f"] = v` /
`mock_jobs[job_id].update(...)`): rewrite the value at the key, keep order. -/
def updateJob : MockStore → String → (MockJob → MockJob) → MockStore
  | [], _, _ => []
  | (k, j) :: rest, id, f =>
      if k = id then (k, f j) :: rest else (k, j) :: updateJob rest id f

/-- Dict assignment `mock_jobs[job_id] = {...}`: overwrite in place if the key
exists, else append (insertion order). -/
def storeSet : MockStore → String → MockJob → MockStore
  | [], id, j => [(id, j)]
  | (k, j0) :: rest, id, j =>
      if k = id then (k, j) :: rest else (k, j0) :: storeSet rest id j

/-- Function `generate_mock_tx_hash` (mock_payment_service.py line 89-91): always the
same hard-coded transaction hash. -/
def generate_mock_tx_hash : String :=
  "5288bde95f7f6d829f280443c59aec1f69b731c64bcbec481a31bc6cabec66a2"

/-- Python's `str.startswith`: the characters of `pre` are a prefix of the
characters of `s`. -/
def pyStartsWith (s pre : String) : Bool :=
  pre.data.isPrefixOf s.data

/-- The address check of the mock `send_payment` (lines 134-138):
`address.startswith(("addr1", "addr_test"))`. -/
def validMockAddress (a : String) : Bool :=
  pyStartsWith a "addr1" || pyStartsWith a "addr_test"

/-- The `PaymentRequest` pydantic model of `mock_payment_service.py`
(`amount` is declared `Field(..., gt=0)`; requests violating it are rejected
before the handler runs, which the embedded handler checks first). -/
structure PaymentReq where
  fromAddress : String
  toAddress : String
  amount : Int
  metadata : Option MetaMap
deriving DecidableEq, Repr

/-- The `PaymentResponse` returned by the mock `send_payment`. -/
structure MockPayResp where
  jobId : String
  txHash : String
  status : MStatus
  estimatedConfirmationTime : Nat
deriving DecidableEq, Repr

/-- Mock branch of `send_payment` (mock_payment_service.py lines 124-138 and
189-219, with `USE_SMART_CONTRACTS` false): pydantic `gt=0` amount validation,
then the two address-prefix checks, then insertion of a fresh `pending` job
carrying the constant mock transaction hash; the confirmation background task
is modelled as the separate operation `simulate_confirmation_process` below.
`freshId` stands for `generate_mock_job_id()`'s uuid-based result and `now`
for `datetime.now()`. -/
def send_payment_mock (s : MockStore) (req : PaymentReq) (freshId : String)
    (now : Nat) : Except String (MockStore × MockPayResp) :=
  if ¬ 0 < req.amount then .error "amount must be greater than 0"
  else if ¬ validMockAddress req.fromAddress then
    .error "Invalid from_address format"
  else if ¬ validMockAddress req.toAddress then
    .error "Invalid to_address format"
  else
    let j : MockJob :=
      { jobId := freshId
        txHash := generate_mock_tx_hash
        status := .pending
        confirmations := 0
        createdAt := now
        confirmedAt := none
        fromAddress := req.fromAddress
        toAddress := req.toAddress
        amount := req.amount
        metadata := req.metadata
        blockHeight := none
        fee := none
        smartContract := false
        contractAddress := none
        executionTxHash := none
        errorMsg := none }
    .ok (storeSet s freshId j,
      { jobId := freshId
        txHash := generate_mock_tx_hash
        status := .pending
        estimatedConfirmationTime := 30 })

/-- Smart-contract branch of `send_payment` (lines 140-180, given a successful
`initiate_payment`): stores a `locked_to_contract` job under the returned
payment id; the execution background task is modelled separately. -/
def send_payment_smart (s : MockStore) (req : PaymentReq) (payId : String)
    (txHash contractAddr : String) (now : Nat) :
    Except String (MockStore × MockPayResp) :=
  if ¬ 0 < req.amount then .error "amount must be greater than 0"
  else if ¬ validMockAddress req.fromAddress then
    .error "Invalid from_address format"
  else if ¬ validMockAddress req.toAddress then
    .error "Invalid to_address format"
  else
    let j : MockJob :=
      { jobId := payId
        txHash := txHash
        status := .lockedToContract
        confirmations := 0
        createdAt := now
        confirmedAt := none
        fromAddress := req.fromAddress
        toAddress := req.toAddress
        amount := req.amount
        metadata := req.metadata
        blockHeight := none
        fee := some 200000
        smartContract := true
        contractAddress := some contractAddr
        executionTxHash := none
        errorMsg := none }
    .ok (storeSet s payId j,
      { jobId := payId
        txHash := txHash
        status := .lockedToContract
        estimatedConfirmationTime := 120 })

/-- Task `simulate_confirmation_process` (lines 97-106), after its sleep: if the
job id is present it is set to `confirmed` with 5 confirmations,
unconditionally on its current status. -/
def simulate_confirmation_process (s : MockStore) (id : String) (now : Nat) :
    MockStore :=
  match lookupJob s id with
  | none => s
  | some _ =>
      updateJob s id fun j =>
        { j with
            status := .confirmed
            confirmedAt := some now
            confirmations := 5
            blockHeight := some (8500000 + now % 1000)
            fee := some 170000 }

/-- Task `simulate_smart_contract_execution` (lines 293-324), after its sleep: if
the job id is present, a successful `execute_payment` sets `confirmed` (with
the execution hash), and a failure or exception sets `failed` with the error
message — again unconditionally on the current status. `res` is the outcome
of `payment_service.execute_payment(job_id)`. -/
def simulate_smart_contract_execution (s : MockStore) (id : String)
    (res : Except String String) (now : Nat) : MockStore :=
  match lookupJob s id with
  | none => s
  | some _ =>
      match res with
      | .ok execHash =>
          updateJob s id fun j =>
            { j with
                status := .confirmed
                confirmations := 5
                confirmedAt := some now
                executionTxHash := some execHash
                blockHeight := some 12345678
                txHash := execHash }
      | .error e =>
          updateJob s id fun j =>
            { j with status := .failed, errorMsg := some e }

/-- Errors of the `cancel_job` endpoint (lines 358-371): HTTP 404 when the id
is unknown, HTTP 400 when the status is not `pending`. -/
inductive CancelErr where
  | notFound
  | invalidState (st : MStatus)
deriving DecidableEq, Repr

/-- Endpoint `cancel_job` (lines 358-371): 404 on unknown id; 400 when the current
status is anything other than `pending` (the store is untouched in both error
cases, the status check preceding any mutation); otherwise the status is set
to `cancelled`. Returns the post-state together with the error, if any. -/
def cancel_job (s : MockStore) (id : String) : MockStore × Option CancelErr :=
  match lookupJob s id with
  | none => (s, some .notFound)
  | some j =>
      if j.status = .pending then
        (updateJob s id fun j0 => { j0 with status := .cancelled }, none)
      else
        (s, some (.invalidState j.status))

/-- Response of `poll_tx_status` (lines 245-291, mock branch). -/
structure PollResp where
  status : MStatus
  txHash : String
  confirmations : Nat
  message : String
  smartContract : Bool
deriving DecidableEq, Repr

/-- Python `max(mock_jobs.keys(), key=lambda x: mock_jobs[x]["created_at"])`: the
first job (in dict insertion order) with maximal `created_at`; `none` on an
empty dict. -/
def latestJob (s : MockStore) : Option MockJob :=
  s.foldl
    (fun acc p =>
      match acc with
      | none => some p.2
      | some j => if p.2.createdAt > j.createdAt then some p.2 else acc)
    none

/-- Mock branch of `poll_tx_status` (lines 270-291): with no jobs stored it
fabricates a `confirmed` answer carrying the hard-coded hash and 5
confirmations; otherwise it reports the most recently created job. -/
def poll_tx_status (s : MockStore) : PollResp :=
  match latestJob s with
  | none =>
      { status := .confirmed
        txHash :=
          "5288bde95f7f6d829f280443c59aec1f69b731c64bcbec481a31bc6cabec66a2"
        confirmations := 5
        message := "TX_CONFIRMED"
        smartContract := false }
  | some j =>
      { status := j.status
        txHash := j.txHash
        confirmations := j.confirmations
        message := if j.status = .confirmed then "TX_CONFIRMED" else "TX_PENDING"
        smartContract := j.smartContract }

/-- The operations that ever touch `mock_jobs`: the two creation branches of
`send_payment`, the scheduled confirmation task, the scheduled smart-contract
execution task, and `cancel_job` (whose error outcomes leave the store as it
was). -/
inductive MockOp where
  | create (req : PaymentReq) (freshId : String) (now : Nat)
  | createSmart (req : PaymentReq) (payId txHash contractAddr : String) (now : Nat)
  | confirmTask (id : String) (now : Nat)
  | execTask (id : String) (res : Except String String) (now : Nat)
  | cancel (id : String)
deriving Repr

/-- Effect of one operation on the `mock_jobs` store. -/
def applyMockOp (s : MockStore) : MockOp → MockStore
  | .create req freshId now =>
      match send_payment_mock s req freshId now with
      | .ok (s', _) => s'
      | .error _ => s
  | .createSmart req payId txHash contractAddr now =>
      match send_payment_smart s req payId txHash contractAddr now with
      | .ok (s', _) => s'
      | .error _ => s
  | .confirmTask id now => simulate_confirmation_process s id now
  | .execTask id res now => simulate_smart_contract_execution s id res now
  | .cancel id => (cancel_job s id).1

/-- A whole operation sequence, applied in order. -/
def runMockOps (s : MockStore) (ops : List MockOp) : MockStore :=
  ops.foldl applyMockOp s

/-- Terminal statuses of the spec's state machine. -/
def MStatus.terminal : MStatus → Bool
  | .confirmed | .failed | .cancelled => true
  | _ => false

/-- Position of a status along the spec's forward order
(`pending → submitted/locked → terminal`). -/
def MStatus.rank : MStatus → Nat
  | .pending => 0
  | .lockedToContract => 1
  | .submitted => 1
  | .confirmed => 2
  | .failed => 2
  | .cancelled => 2

/-- Status `a` before-or-equal `b` in the state machine's partial order: equal, or
`a` is non-terminal and does not come after `b`.  Distinct terminal statuses
are incomparable and a terminal status precedes nothing but itself. -/
def MStatus.fwd (a b : MStatus) : Prop :=
  a = b ∨ (a.terminal = false ∧ a.rank ≤ b.rank)

instance : DecidablePred fun p : MStatus × MStatus => p.1.fwd p.2 := by
  intro p
  unfold MStatus.fwd
  infer_instance

instance (a b : MStatus) : Decidable (a.fwd b) := by
  unfold MStatus.fwd
  infer_instance

/-- The forward order lifted to a job slot of the store: a missing job may
appear (creation), a present job may only move forward, and jobs are never
deleted. -/
def optFwd : Option MStatus → Option MStatus → Prop
  | none, _ => True
  | some _, none => False
  | some a, some b => a.fwd b

/-- Status of the job stored under `id`, if any. -/
def statusAt (s : MockStore) (id : String) : Option MStatus :=
  (lookupJob s id).map MockJob.status

instance : ∀ a b : Option MStatus, Decidable (optFwd a b)
  | none, _ => isTrue trivial
  | some _, none => isFalse fun h => h
  | some a, some b => inferInstanceAs (Decidable (a.fwd b))

/-!
### real_payment_service.py

`process_transaction_confirmation` polls Masumi every 10 seconds while the
elapsed time is below the hard-coded `max_wait_time = 300`; a definitive
`confirmed`/`failed` Masumi answer terminates the loop, any exception while
querying is logged and the loop sleeps and retries, and loop exit by time
marks the job failed with the timeout message.  One loop iteration `k` is
modelled at elapsed time `10 * k` seconds (first poll at 0, a 10 s sleep
between polls).
-/

/-- Status strings of `real_payment_service.py` jobs. -/
inductive RStatus where
  | pending
  | submitted
  | confirmed
  | failed
deriving DecidableEq, Repr

/-- One entry of the `active_jobs` dict of `real_payment_service.py`
(the dict built at lines 275-291). -/
structure RJob where
  jobId : String
  masumiTxId : Option String
  txHash : Option String
  status : RStatus
  confirmations : Nat
  createdAt : Nat
  submittedAt : Option Nat
  confirmedAt : Option Nat
  fromAddress : String
  toAddress : String
  amount : Int
  metadata : Option MetaMap
  blockHeight : Option Nat
  fee : Option Nat
  errorMessage : Option String
deriving DecidableEq, Repr

/-- The `active_jobs` dict. -/
abbrev RStore := List (String × RJob)

/-- Dict read on `active_jobs`. -/
def lookupRJob : RStore → String → Option RJob
  | [], _ => none
  | (k, j) :: rest, id => if k = id then some j else lookupRJob rest id

/-- In-place mutation of one `active_jobs` entry. -/
def updateRJob : RStore → String → (RJob → RJob) → RStore
  | [], _, _ => []
  | (k, j) :: rest, id, f =>
      if k = id then (k, f j) :: rest else (k, j) :: updateRJob rest id f

/-- Dict assignment `active_jobs[job_id] = {...}`. -/
def rstoreSet : RStore → String → RJob → RStore
  | [], id, j => [(id, j)]
  | (k, j0) :: rest, id, j =>
      if k = id then (k, j) :: rest else (k, j0) :: rstoreSet rest id j

/-- One answer of `masumi_client.get_transaction_status` as consumed by the
monitor loop: the `status` field compared against "confirmed"/"failed"
(a confirmed answer carries the optional `cardano_tx_hash`), anything else
being "still pending"; `transientErr` is an exception thrown by the call
(caught at lines 175-177). -/
inductive GAnswer where
  | confirmed (cardanoTxHash : Option String)
  | failed (err : String)
  | stillPending
  | transientErr
deriving DecidableEq, Repr

/-- Successful Blockfrost verification of a confirmed hash
(`get_transaction` + `get_transaction_confirmations`, lines 136-137). -/
structure VerifyInfo where
  confirmations : Nat
  blockHeight : Option Nat
  fees : Option Nat
deriving DecidableEq, Repr

/-- The message `"Transaction confirmation timeout"` (line 182). -/
def timeoutMessage : String := "Transaction confirmation timeout"

/-- The polling loop of `process_transaction_confirmation` (lines 121-184),
acting on the job record of the monitored id.  `poll k` is the Masumi answer
of iteration `k`, `verify h` the Blockfrost verification of hash `h` (`none`
when it throws, the `except` at lines 152-161 then recording 1 confirmation).
A Masumi `confirmed` answer with no `cardano_tx_hash` falls through to the
sleep (no `return` is reached at lines 129-161 in that case).  Returns the
updated job together with the elapsed time at which the loop ended. -/
def confirm_loop (poll : Nat → GAnswer) (verify : String → Option VerifyInfo)
    (j : RJob) (k : Nat) : RJob × Nat :=
  if h10 : 10 * k < 300 then
    match poll k with
    | .confirmed (some h) =>
        (match verify h with
         | some info =>
             ({ j with
                  status := .confirmed
                  txHash := some h
                  confirmedAt := some (10 * k)
                  confirmations := info.confirmations
                  blockHeight := info.blockHeight
                  fee := info.fees }, 10 * k)
         | none =>
             ({ j with
                  status := .confirmed
                  txHash := some h
                  confirmedAt := some (10 * k)
                  confirmations := 1 }, 10 * k))
    | .confirmed none => confirm_loop poll verify j (k + 1)
    | .failed e =>
        ({ j with status := .failed, errorMessage := some e }, 10 * k)
    | .stillPending => confirm_loop poll verify j (k + 1)
    | .transientErr => confirm_loop poll verify j (k + 1)
  else
    ({ j with status := .failed, errorMessage := some timeoutMessage }, 10 * k)
termination_by 30 - k
decreasing_by all_goals omega

/-- Context of the real `send_payment` (lines 230-322): the gateway address
validation, the Masumi `create_transaction` result (`tx_id`, `none` when
absent), its estimated fee, and the `submit_transaction` outcome (`.error` is
an exception, `.ok` carries the optional `cardano_tx_hash`). -/
structure RealSendCtx where
  validateAddress : String → Bool
  createTxId : Option String
  estimatedFee : Option Nat
  submitTx : Except String (Option String)

/-- Outcome of the real `send_payment`: the store afterwards, either an error
detail or the response's (status, txHash), whether the confirmation monitor
was scheduled (`background_tasks.add_task`, line 306), and how many times
`submit_transaction` was invoked. -/
structure RealSendOutcome where
  store : RStore
  result : Except String (RStatus × Option String)
  monitorStarted : Bool
  submitAttempts : Nat
deriving Repr

/-- Endpoint `send_payment` of `real_payment_service.py` (lines 230-322).  Address
validation errors abort before any store write; a missing Masumi `tx_id`
aborts before the job is stored; otherwise the job is stored `pending`, one
submit is attempted, success moves it to `submitted` (recording the hash and
`submitted_at`) and schedules the monitor, and a submit exception moves it to
`failed` with a `Submission failed: ...` message and schedules nothing.
(The balance check of lines 248-255 cannot abort: the `HTTPException` it
raises is caught by its own `except Exception` and only logged.) -/
def send_payment_real (s : RStore) (ctx : RealSendCtx) (req : PaymentReq)
    (jobId : String) (now : Nat) : RealSendOutcome :=
  if ¬ ctx.validateAddress req.fromAddress then
    { store := s, result := .error "Invalid from_address",
      monitorStarted := false, submitAttempts := 0 }
  else if ¬ ctx.validateAddress req.toAddress then
    { store := s, result := .error "Invalid to_address",
      monitorStarted := false, submitAttempts := 0 }
  else
    match ctx.createTxId with
    | none =>
        { store := s, result := .error "Failed to create Masumi transaction",
          monitorStarted := false, submitAttempts := 0 }
    | some txId =>
        let j : RJob :=
          { jobId := jobId
            masumiTxId := some txId
            txHash := none
            status := .pending
            confirmations := 0
            createdAt := now
            submittedAt := none
            confirmedAt := none
            fromAddress := req.fromAddress
            toAddress := req.toAddress
            amount := req.amount
            metadata := req.metadata
            blockHeight := none
            fee := ctx.estimatedFee
            errorMessage := none }
        let s1 := rstoreSet s jobId j
        match ctx.submitTx with
        | .ok cardanoHash =>
            { store := updateRJob s1 jobId fun j0 =>
                { j0 with
                    status := .submitted
                    txHash := cardanoHash
                    submittedAt := some now }
              result := .ok (.submitted, cardanoHash)
              monitorStarted := true
              submitAttempts := 1 }
        | .error e =>
            { store := updateRJob s1 jobId fun j0 =>
                { j0 with
                    status := .failed
                    errorMessage := some ("Submission failed: " ++ e) }
              result := .error ("Transaction submission failed: " ++ e)
              monitorStarted := false
              submitAttempts := 1 }

/-- Endpoint `get_transaction_status` of `real_payment_service.py` (lines 330-346):
404 on an unknown id; for a `confirmed` job with a recorded `tx_hash` it asks
Blockfrost for the live confirmation count (`live`, `none` when the call
throws) and writes `max(stored, live)` back into the job record itself before
serialising it; every other job is returned as stored.  Returns the store
afterwards and the serialised snapshot (`none` = 404). -/
def get_transaction_status (s : RStore) (id : String) (live : Option Nat) :
    RStore × Option RJob :=
  match lookupRJob s id with
  | none => (s, none)
  | some j =>
      if j.status = .confirmed ∧ j.txHash ≠ none then
        match live with
        | some c =>
            let j' := { j with confirmations := max j.confirmations c }
            (updateRJob s id fun _ => j', some j')
        | none => (s, some j)
      else (s, some j)

/-!
### src/blockchain/payment_service.py
-/

/-- Status strings of `PaymentService` jobs. -/
inductive PStatus where
  | pending
  | processing
  | completed
  | failed
deriving DecidableEq, Repr

/-- One entry of `PaymentService.active_jobs` (the dict built at lines
181-189). -/
structure PJob where
  jobId : String
  status : PStatus
  request : PaymentReq
  createdAt : Nat
  updatedAt : Nat
  transactionHash : Option String
  errorMsg : Option String
deriving DecidableEq, Repr

/-- The dict `PaymentService.active_jobs`. -/
abbrev PStore := List (String × PJob)

/-- Dict read on `PaymentService.active_jobs`. -/
def lookupPJob : PStore → String → Option PJob
  | [], _ => none
  | (k, j) :: rest, id => if k = id then some j else lookupPJob rest id

/-- Dict assignment on `PaymentService.active_jobs`. -/
def pstoreSet : PStore → String → PJob → PStore
  | [], id, j => [(id, j)]
  | (k, j0) :: rest, id, j =>
      if k = id then (k, j) :: rest else (k, j0) :: pstoreSet rest id j

/-- Method `PaymentService._validate_address` (lines 196-207): non-empty, and prefix
`addr_test1` on preprod/testnet, `addr1` otherwise (`network` is the
`CARDANO_NETWORK` setting, default `preprod`). -/
def validate_address (network : String) (a : String) : Bool :=
  if a = "" then false
  else if network = "preprod" ∨ network = "testnet" then
    pyStartsWith a "addr_test1"
  else pyStartsWith a "addr1"

/-- Method `PaymentService.create_payment_job` (lines 166-194): generates the job id,
validates both addresses then the minimum amount (1 000 000 lovelace), and
only then inserts the `pending` job; a `ValueError` (modelled as the returned
message) leaves the store untouched.  No gateway call of any kind occurs
here — the only Blockfrost use is inside `process_payment`, which the
endpoint schedules only after a successful creation. -/
def create_payment_job (s : PStore) (network : String) (req : PaymentReq)
    (jobId : String) (now : Nat) : PStore × Option String :=
  if ¬ validate_address network req.fromAddress then
    (s, some "Invalid from_address")
  else if ¬ validate_address network req.toAddress then
    (s, some "Invalid to_address")
  else if req.amount < 1000000 then
    (s, some "Amount must be at least 1 ADA (1,000,000 lovelace)")
  else
    (pstoreSet s jobId
      { jobId := jobId
        status := .pending
        request := req
        createdAt := now
        updatedAt := now
        transactionHash := none
        errorMsg := none }, none)

/-- The `send_payment` endpoint of `payment_service.py` (lines 327-352):
creation failure surfaces as HTTP 400 with nothing scheduled; success
schedules `process_payment` in the background and answers `pending`. -/
def send_payment_endpoint (s : PStore) (network : String) (req : PaymentReq)
    (jobId : String) (now : Nat) :
    PStore × Except String PStatus × Bool :=
  match create_payment_job s network req jobId now with
  | (s', some msg) => (s', .error msg, false)
  | (s', none) => (s', .ok .pending, true)

/-- Method `PaymentService.get_job_status` (lines 291-293): a bare dict read of the
live job record, mutating nothing. -/
def get_job_status (s : PStore) (id : String) : Option PJob :=
  lookupPJob s id

/-- The fixed mock processing delay of `process_payment` (line 225:
`await asyncio.sleep(2)`). -/
def mockProcessingDelaySeconds : Nat := 2

/-- Mock branch of `PaymentService.process_payment` (lines 223-237), given
the job exists: the job goes to `processing`, then after the fixed 2 s sleep
the draw `r = random.random()` decides the terminal state — `completed` with
a fresh mock hash when `r < 0.9`, `failed` otherwise. -/
def process_payment_mock (j : PJob) (r : ℚ) (freshHash : String) (now : Nat) :
    PJob :=
  let j1 := { j with status := .processing, updatedAt := now }
  if r < 9 / 10 then
    { j1 with
        status := .completed
        transactionHash := some ("mock_tx_" ++ freshHash)
        updatedAt := now + mockProcessingDelaySeconds }
  else
    { j1 with
        status := .failed
        errorMsg := some "Mock payment failure for testing"
        updatedAt := now + mockProcessingDelaySeconds }

/-!
### Project-dagadaga/blockchain/smart_contract_payment.py
-/

/-- Id scheme of `SmartContractPaymentService.initiate_payment` (line 280):
`payment_id = f"pay_{int(datetime.now().timestamp())}_{amount}"` — the
current wall-clock second and the amount, nothing else. -/
def payment_id_of (nowSec : Nat) (amount : Nat) : String :=
  "pay_" ++ toString nowSec ++ "_" ++ toString amount

/-- One entry of `SmartContractPaymentService.payments`. -/
structure SCPayment where
  txHash : String
  fromAddress : String
  toAddress : String
  amount : Nat
  status : String
  createdAt : Nat
  contractTxHash : String
  executionTxHash : Option String
deriving DecidableEq, Repr

/-- The dict `SmartContractPaymentService.payments`. -/
abbrev SCStore := List (String × SCPayment)

/-- Dict assignment on `payments`. -/
def scstoreSet : SCStore → String → SCPayment → SCStore
  | [], id, j => [(id, j)]
  | (k, j0) :: rest, id, j =>
      if k = id then (k, j) :: rest else (k, j0) :: scstoreSet rest id j

/-- Method `SmartContractPaymentService.initiate_payment` (lines 265-319): the
payment id is derived from the current second and the amount; on a successful
`lock_funds_to_contract` (`lockResult = .ok txHash`) the payment is stored
with status `locked_to_contract` and `(success, payment_id, tx_hash)` is
returned; an exception stores nothing and reports failure. -/
def initiate_payment (ps : SCStore) (nowSec : Nat) (fromAddr toAddr : String)
    (amount : Nat) (lockResult : Except String String) :
    SCStore × Except String (String × String) :=
  let payId := payment_id_of nowSec amount
  match lockResult with
  | .ok txHash =>
      (scstoreSet ps payId
        { txHash := txHash
          fromAddress := fromAddr
          toAddress := toAddr
          amount := amount
          status := "locked_to_contract"
          createdAt := nowSec
          contractTxHash := txHash
          executionTxHash := none }, .ok (payId, txHash))
  | .error e => (ps, .error e)

/-- Function `generate_mock_job_id` (mock_payment_service.py lines 93-95):
`f"job_{uuid.uuid4().hex[:16]}"` — the constant tag followed by the first 16
hex digits of a fresh uuid (`hex16` stands for that uuid part). -/
def mock_job_id_of (hex16 : String) : String :=
  "job_" ++ hex16

/-- Dict read on `SmartContractPaymentService.payments`. -/
def lookupSCPay : SCStore → String → Option SCPayment
  | [], _ => none
  | (k, j) :: rest, id => if k = id then some j else lookupSCPay rest id

/-- Side condition on one operation relative to the current store, describing
the runs the amended forward-only claim quantifies over: creations use a
fresh id (the uuid/clock assumption) and each scheduled background task fires
while its job is absent or still non-terminal (in particular, not after a
cancellation). -/
def okMockOp (s : MockStore) : MockOp → Bool
  | .create _ freshId _ => (lookupJob s freshId).isNone
  | .createSmart _ payId _ _ _ => (lookupJob s payId).isNone
  | .confirmTask id _ =>
      match lookupJob s id with
      | none => true
      | some j => !j.status.terminal
  | .execTask id _ _ =>
      match lookupJob s id with
      | none => true
      | some j => !j.status.terminal
  | .cancel _ => true

/-- The side condition along a whole run. -/
def okMockTrace : MockStore → List MockOp → Bool
  | _, [] => true
  | s, op :: ops => okMockOp s op && okMockTrace (applyMockOp s op) ops

/-!
### Association-list lemmas for the embedded dicts
-/

theorem lookupJob_storeSet (s : MockStore) (id id' : String) (j : MockJob) :
    lookupJob (storeSet s id j) id' =
      if id = id' then some j else lookupJob s id' := by
  induction s with
  | nil => simp [storeSet, lookupJob]
  | cons p rest ih =>
    obtain ⟨k, j0⟩ := p
    by_cases hk : k = id
    · subst hk
      by_cases h' : k = id' <;> simp [storeSet, lookupJob, h']
    · by_cases h' : k = id'
      · subst h'
        have : ¬ id = k := fun h => hk h.symm
        simp [storeSet, lookupJob, hk, this]
      · simp [storeSet, lookupJob, hk, h', ih]

theorem lookupJob_updateJob (s : MockStore) (id id' : String)
    (f : MockJob → MockJob) :
    lookupJob (updateJob s id f) id' =
      if id = id' then (lookupJob s id).map f else lookupJob s id' := by
  induction s with
  | nil => simp [updateJob, lookupJob]
  | cons p rest ih =>
    obtain ⟨k, j0⟩ := p
    by_cases hk : k = id
    · subst hk
      by_cases h' : k = id' <;> simp [updateJob, lookupJob, h']
    · by_cases h' : k = id'
      · subst h'
        have : ¬ id = k := fun h => hk h.symm
        simp [updateJob, lookupJob, hk, this]
      · simp [updateJob, lookupJob, hk, h', ih]

theorem lookupRJob_rstoreSet (s : RStore) (id id' : String) (j : RJob) :
    lookupRJob (rstoreSet s id j) id' =
      if id = id' then some j else lookupRJob s id' := by
  induction s with
  | nil => simp [rstoreSet, lookupRJob]
  | cons p rest ih =>
    obtain ⟨k, j0⟩ := p
    by_cases hk : k = id
    · subst hk
      by_cases h' : k = id' <;> simp [rstoreSet, lookupRJob, h']
    · by_cases h' : k = id'
      · subst h'
        have : ¬ id = k := fun h => hk h.symm
        simp [rstoreSet, lookupRJob, hk, this]
      · simp [rstoreSet, lookupRJob, hk, h', ih]

theorem lookupRJob_updateRJob (s : RStore) (id id' : String)
    (f : RJob → RJob) :
    lookupRJob (updateRJob s id f) id' =
      if id = id' then (lookupRJob s id).map f else lookupRJob s id' := by
  induction s with
  | nil => simp [updateRJob, lookupRJob]
  | cons p rest ih =>
    obtain ⟨k, j0⟩ := p
    by_cases hk : k = id
    · subst hk
      by_cases h' : k = id' <;> simp [updateRJob, lookupRJob, h']
    · by_cases h' : k = id'
      · subst h'
        have : ¬ id = k := fun h => hk h.symm
        simp [updateRJob, lookupRJob, hk, this]
      · simp [updateRJob, lookupRJob, hk, h', ih]

theorem lookupPJob_pstoreSet (s : PStore) (id id' : String) (j : PJob) :
    lookupPJob (pstoreSet s id j) id' =
      if id = id' then some j else lookupPJob s id' := by
  induction s with
  | nil => simp [pstoreSet, lookupPJob]
  | cons p rest ih =>
    obtain ⟨k, j0⟩ := p
    by_cases hk : k = id
    · subst hk
      by_cases h' : k = id' <;> simp [pstoreSet, lookupPJob, h']
    · by_cases h' : k = id'
      · subst h'
        have : ¬ id = k := fun h => hk h.symm
        simp [pstoreSet, lookupPJob, hk, this]
      · simp [pstoreSet, lookupPJob, hk, h', ih]

/-!
### Claim theorems
-/

/-- C10: in the mock gateway path every created job carries the constant
hard-coded transaction hash as its settlement reference, and the latest-status
poll on an empty store fabricates a `confirmed` answer with 5 confirmations
and that same constant hash. -/
theorem mock_constant_hash_and_empty_poll_fabricates :
    (∀ s req freshId now s' resp,
        send_payment_mock s req freshId now = .ok (s', resp) →
          (lookupJob s' freshId).map MockJob.txHash =
            some generate_mock_tx_hash ∧
          resp.txHash = generate_mock_tx_hash) ∧
    poll_tx_status [] =
      { status := .confirmed
        txHash := generate_mock_tx_hash
        confirmations := 5
        message := "TX_CONFIRMED"
        smartContract := false } := by
  constructor
  · intro s req freshId now s' resp h
    unfold send_payment_mock at h
    split at h
    · exact absurd h (by simp)
    · split at h
      · exact absurd h (by simp)
      · split at h
        · exact absurd h (by simp)
        · obtain ⟨h1, h2⟩ : _ ∧ _ = resp := by simpa using h
          subst h1
          subst h2
          simp [lookupJob_storeSet]
  · rfl

/-- Witness for C10's quantified conjunct at a concrete request. -/
theorem mock_constant_hash_witness :
    (lookupJob
        [("job_1",
          { jobId := "job_1"
            txHash := generate_mock_tx_hash
            status := .pending
            confirmations := 0
            createdAt := 0
            confirmedAt := none
            fromAddress := "addr_test1a"
            toAddress := "addr_test1b"
            amount := 1000000
            metadata := none
            blockHeight := none
            fee := none
            smartContract := false
            contractAddress := none
            executionTxHash := none
            errorMsg := none })] "job_1").map MockJob.txHash =
      some generate_mock_tx_hash ∧
    (MockPayResp.mk "job_1" generate_mock_tx_hash .pending 30).txHash =
      generate_mock_tx_hash :=
  mock_constant_hash_and_empty_poll_fabricates.1 []
    ⟨"addr_test1a", "addr_test1b", 1000000, none⟩ "job_1" 0 _ _ (by rfl)

/-- C2: `create_payment_job` validates both addresses and the amount before
touching the store; a request with `amount = 0` is rejected, creates no job,
and schedules no background processing (the only place a gateway submit can
happen); conversely a successful creation implies a positive amount and two
valid addresses. -/
theorem create_job_validates_before_insert :
    (∀ (s : PStore) (network : String) (req : PaymentReq) (jobId : String)
        (now : Nat),
        req.amount = 0 →
          (send_payment_endpoint s network req jobId now).1 = s ∧
          (∃ msg,
            (send_payment_endpoint s network req jobId now).2.1 =
              .error msg) ∧
          (send_payment_endpoint s network req jobId now).2.2 = false) ∧
    (∀ s network req jobId now st,
        (send_payment_endpoint s network req jobId now).2.1 = .ok st →
          0 < req.amount ∧
          validate_address network req.fromAddress = true ∧
          validate_address network req.toAddress = true) := by
  constructor
  · intro s network req jobId now h0
    have hlt : req.amount < 1000000 := by rw [h0]; norm_num
    unfold send_payment_endpoint create_payment_job
    by_cases hf : validate_address network req.fromAddress <;>
      by_cases ht : validate_address network req.toAddress <;>
        simp [hf, ht, hlt]
  · intro s network req jobId now st hok
    unfold send_payment_endpoint create_payment_job at hok
    by_cases hf : validate_address network req.fromAddress
    · by_cases ht : validate_address network req.toAddress
      · by_cases ha : req.amount < 1000000
        · simp [hf, ht, ha] at hok
        · exact ⟨by omega, hf, ht⟩
      · simp [hf, ht] at hok
    · simp [hf] at hok

/-- Witness for C2 at the spec's scenario `CreateJob(amount=0)`. -/
theorem create_job_amount_zero_witness :
    (send_payment_endpoint [] "preprod"
        ⟨"addr_test1a", "addr_test1b", 0, none⟩ "id1" 5).1 = ([] : PStore) ∧
    (∃ msg,
      (send_payment_endpoint [] "preprod"
          ⟨"addr_test1a", "addr_test1b", 0, none⟩ "id1" 5).2.1 =
        .error msg) ∧
    (send_payment_endpoint [] "preprod"
        ⟨"addr_test1a", "addr_test1b", 0, none⟩ "id1" 5).2.2 = false :=
  create_job_validates_before_insert.1 [] "preprod"
    ⟨"addr_test1a", "addr_test1b", 0, none⟩ "id1" 5 rfl

/-- C5: when the initial gateway submit throws, the real `send_payment` moves
the job straight from `pending` to `failed` with a `Submission failed` error,
never records a submission (`submitted_at` and `tx_hash` stay unset), starts
no confirmation monitor, and attempts the submit exactly once. -/
theorem submit_failure_goes_straight_to_failed
    (s : RStore) (ctx : RealSendCtx) (req : PaymentReq) (jobId : String)
    (now : Nat) (txId e : String)
    (hf : ctx.validateAddress req.fromAddress = true)
    (ht : ctx.validateAddress req.toAddress = true)
    (hc : ctx.createTxId = some txId)
    (hs : ctx.submitTx = .error e) :
    (∃ j, lookupRJob (send_payment_real s ctx req jobId now).store jobId =
        some j ∧
      j.status = .failed ∧
      j.errorMessage = some ("Submission failed: " ++ e) ∧
      j.submittedAt = none ∧ j.txHash = none) ∧
    (send_payment_real s ctx req jobId now).monitorStarted = false ∧
    (send_payment_real s ctx req jobId now).submitAttempts = 1 := by
  unfold send_payment_real
  simp [hf, ht, hc, hs, lookupRJob_updateRJob, lookupRJob_rstoreSet]

/-- Witness for C5 at a concrete failing submit. -/
theorem submit_failure_witness :
    (∃ j, lookupRJob
        (send_payment_real []
          { validateAddress := fun _ => true
            createTxId := some "mtx1"
            estimatedFee := none
            submitTx := .error "boom" }
          ⟨"addr_test1a", "addr_test1b", 1000000, none⟩ "rj1" 7).store "rj1" =
        some j ∧
      j.status = .failed ∧
      j.errorMessage = some ("Submission failed: " ++ "boom") ∧
      j.submittedAt = none ∧ j.txHash = none) ∧
    (send_payment_real []
        { validateAddress := fun _ => true
          createTxId := some "mtx1"
          estimatedFee := none
          submitTx := .error "boom" }
        ⟨"addr_test1a", "addr_test1b", 1000000, none⟩ "rj1" 7).monitorStarted =
      false ∧
    (send_payment_real []
        { validateAddress := fun _ => true
          createTxId := some "mtx1"
          estimatedFee := none
          submitTx := .error "boom" }
        ⟨"addr_test1a", "addr_test1b", 1000000, none⟩ "rj1" 7).submitAttempts =
      1 :=
  submit_failure_goes_straight_to_failed [] _ _ "rj1" 7 "mtx1" "boom"
    rfl rfl rfl rfl

/-- If Masumi never gives a definitive answer, every iteration of the
polling loop up to the deadline just sleeps and retries, and the loop ends in
the timeout branch at elapsed time 300. -/
theorem confirm_loop_timeout_of_no_terminal
    (poll : Nat → GAnswer) (verify : String → Option VerifyInfo) (j : RJob)
    (hnt : ∀ m, poll m = .stillPending ∨ poll m = .transientErr) :
    ∀ n k, k + n = 30 →
      confirm_loop poll verify j k =
        ({ j with status := .failed, errorMessage := some timeoutMessage },
          300) := by
  intro n
  induction n with
  | zero =>
    intro k hk
    have hk30 : k = 30 := by omega
    subst hk30
    rw [confirm_loop]
    norm_num
  | succ n ih =>
    intro k hk
    have hlt : 10 * k < 300 := by omega
    rw [confirm_loop]
    rcases hnt k with h | h <;> simp only [hlt, dif_pos, h] <;>
      exact ih (k + 1) (by omega)

/-- The loop can end strictly before the 300 s deadline only on a definitive
gateway answer: a confirmed status with a hash, or a reported failure. -/
theorem confirm_loop_early_stop
    (poll : Nat → GAnswer) (verify : String → Option VerifyInfo) (j : RJob) :
    ∀ n k res t, k + n = 30 → confirm_loop poll verify j k = (res, t) →
      t < 300 →
      (∃ m h', poll m = .confirmed (some h')) ∨ ∃ m e, poll m = .failed e := by
  intro n
  induction n with
  | zero =>
    intro k res t hk h hlt
    have hk30 : k = 30 := by omega
    subst hk30
    rw [confirm_loop] at h
    norm_num at h
    omega
  | succ n ih =>
    intro k res t hk h hlt
    have h10 : 10 * k < 300 := by omega
    cases hpk : poll k with
    | confirmed ch =>
      cases ch with
      | some hh => exact Or.inl ⟨k, hh, hpk⟩
      | none =>
        rw [confirm_loop] at h
        simp only [h10, dif_pos, hpk] at h
        exact ih (k + 1) res t (by omega) h hlt
    | failed e => exact Or.inr ⟨k, e, hpk⟩
    | stillPending =>
      rw [confirm_loop] at h
      simp only [h10, dif_pos, hpk] at h
      exact ih (k + 1) res t (by omega) h hlt
    | transientErr =>
      rw [confirm_loop] at h
      simp only [h10, dif_pos, hpk] at h
      exact ih (k + 1) res t (by omega) h hlt

/-- A `failed` job coming out of the polling loop carries either the timeout
message or an error reported by the gateway itself — never the text of a
transient polling exception. -/
theorem confirm_loop_failed_source
    (poll : Nat → GAnswer) (verify : String → Option VerifyInfo) (j : RJob) :
    ∀ n k res t, k + n = 30 → confirm_loop poll verify j k = (res, t) →
      res.status = .failed →
      res.errorMessage = some timeoutMessage ∨
      ∃ m e, poll m = .failed e ∧ res.errorMessage = some e := by
  intro n
  induction n with
  | zero =>
    intro k res t hk h hf
    have hk30 : k = 30 := by omega
    subst hk30
    rw [confirm_loop] at h
    norm_num at h
    left
    rw [← h.1]
  | succ n ih =>
    intro k res t hk h hf
    have h10 : 10 * k < 300 := by omega
    cases hpk : poll k with
    | confirmed ch =>
      cases ch with
      | some hh =>
        rw [confirm_loop] at h
        simp only [h10, dif_pos, hpk] at h
        cases hv : verify hh
        · rw [hv] at h
          injection h with h1 h2
          subst h1
          simp at hf
        · rw [hv] at h
          injection h with h1 h2
          subst h1
          simp at hf
      | none =>
        rw [confirm_loop] at h
        simp only [h10, dif_pos, hpk] at h
        exact ih (k + 1) res t (by omega) h hf
    | failed e =>
      rw [confirm_loop] at h
      simp only [h10, dif_pos, hpk] at h
      injection h with h1 h2
      subst h1
      exact Or.inr ⟨k, e, hpk, rfl⟩
    | stillPending =>
      rw [confirm_loop] at h
      simp only [h10, dif_pos, hpk] at h
      exact ih (k + 1) res t (by omega) h hf
    | transientErr =>
      rw [confirm_loop] at h
      simp only [h10, dif_pos, hpk] at h
      exact ih (k + 1) res t (by omega) h hf

/-- C3: a job whose gateway never reports a terminal state is marked `failed`
with the confirmation-timeout message exactly at the 300 s maximum wait; and
in general the monitor never gives up before 300 s without a definitive
gateway answer (a confirmed-with-hash or an explicit failure). -/
theorem monitor_times_out_exactly_at_max_wait
    (poll : Nat → GAnswer) (verify : String → Option VerifyInfo) (j : RJob)
    (hnt : ∀ m, poll m = .stillPending ∨ poll m = .transientErr) :
    confirm_loop poll verify j 0 =
      ({ j with status := .failed, errorMessage := some timeoutMessage },
        300) ∧
    (∀ (poll' : Nat → GAnswer) verify' (j' : RJob) res t,
        confirm_loop poll' verify' j' 0 = (res, t) → t < 300 →
        (∃ m h', poll' m = .confirmed (some h')) ∨
        ∃ m e, poll' m = .failed e) :=
  ⟨confirm_loop_timeout_of_no_terminal poll verify j hnt 30 0 rfl,
   fun poll' verify' j' res t h hlt =>
     confirm_loop_early_stop poll' verify' j' 30 0 res t rfl h hlt⟩

/-- Witness for C3: a gateway that forever answers "still pending" times the
job out at exactly 300 s. -/
theorem monitor_timeout_witness :
    (confirm_loop (fun _ => .stillPending) (fun _ => none)
        { jobId := "rj1"
          masumiTxId := some "mtx1"
          txHash := none
          status := .submitted
          confirmations := 0
          createdAt := 0
          submittedAt := some 0
          confirmedAt := none
          fromAddress := "addr_test1a"
          toAddress := "addr_test1b"
          amount := 1000000
          metadata := none
          blockHeight := none
          fee := none
          errorMessage := none } 0).2 = 300 :=
  congrArg Prod.snd
    (monitor_times_out_exactly_at_max_wait (fun _ => .stillPending)
      (fun _ => none) _ (fun _ => Or.inl rfl)).1

/-- C6: a transient `QueryStatus` exception in iteration `k` leaves the job
record untouched and just continues the loop at the next interval; and a
transient error text is never surfaced as the job's error — a `failed` job
carries the timeout message or a gateway-reported failure. -/
theorem transient_poll_error_absorbed
    (poll : Nat → GAnswer) (verify : String → Option VerifyInfo) (j : RJob)
    (k : Nat) (hk : 10 * k < 300) (he : poll k = .transientErr) :
    confirm_loop poll verify j k = confirm_loop poll verify j (k + 1) ∧
    (∀ res t, confirm_loop poll verify j 0 = (res, t) →
      res.status = .failed →
      res.errorMessage = some timeoutMessage ∨
      ∃ m e, poll m = .failed e ∧ res.errorMessage = some e) := by
  constructor
  · rw [confirm_loop]
    simp only [hk, dif_pos, he]
  · intro res t h hf
    exact confirm_loop_failed_source poll verify j 30 0 res t rfl h hf

/-- Witness for C6: a gateway whose first poll throws. -/
theorem transient_poll_error_witness :
    confirm_loop (fun _ => .transientErr) (fun _ => none)
        { jobId := "rj1"
          masumiTxId := some "mtx1"
          txHash := none
          status := .submitted
          confirmations := 0
          createdAt := 0
          submittedAt := some 0
          confirmedAt := none
          fromAddress := "addr_test1a"
          toAddress := "addr_test1b"
          amount := 1000000
          metadata := none
          blockHeight := none
          fee := none
          errorMessage := none } 0 =
      confirm_loop (fun _ => .transientErr) (fun _ => none)
        { jobId := "rj1"
          masumiTxId := some "mtx1"
          txHash := none
          status := .submitted
          confirmations := 0
          createdAt := 0
          submittedAt := some 0
          confirmedAt := none
          fromAddress := "addr_test1a"
          toAddress := "addr_test1b"
          amount := 1000000
          metadata := none
          blockHeight := none
          fee := none
          errorMessage := none } 1 :=
  (transient_poll_error_absorbed (fun _ => .transientErr) (fun _ => none)
    _ 0 (by norm_num) rfl).1

theorem lookupSCPay_scstoreSet (s : SCStore) (id id' : String)
    (j : SCPayment) :
    lookupSCPay (scstoreSet s id j) id' =
      if id = id' then some j else lookupSCPay s id' := by
  induction s with
  | nil => simp [scstoreSet, lookupSCPay]
  | cons p rest ih =>
    obtain ⟨k, j0⟩ := p
    by_cases hk : k = id
    · subst hk
      by_cases h' : k = id' <;> simp [scstoreSet, lookupSCPay, h']
    · by_cases h' : k = id'
      · subst h'
        have : ¬ id = k := fun h => hk h.symm
        simp [scstoreSet, lookupSCPay, hk, this]
      · simp [scstoreSet, lookupSCPay, hk, h', ih]

/-- C9 counterexample: a status read is not effect-free.  On a store holding
one `confirmed` job with a recorded hash and 1 stored confirmation, a
`get_transaction_status` read that sees 5 live confirmations rewrites the
stored job record: the store after the read differs from the store before. -/
theorem get_status_mutates_counterexample :
    (get_transaction_status
        [("rj1",
          { jobId := "rj1"
            masumiTxId := some "mtx1"
            txHash := some "cardano_h"
            status := .confirmed
            confirmations := 1
            createdAt := 0
            submittedAt := some 0
            confirmedAt := some 20
            fromAddress := "addr_test1a"
            toAddress := "addr_test1b"
            amount := 1000000
            metadata := none
            blockHeight := none
            fee := none
            errorMessage := none })] "rj1" (some 5)).1 ≠
      [("rj1",
        { jobId := "rj1"
          masumiTxId := some "mtx1"
          txHash := some "cardano_h"
          status := .confirmed
          confirmations := 1
          createdAt := 0
          submittedAt := some 0
          confirmedAt := some 20
          fromAddress := "addr_test1a"
          toAddress := "addr_test1b"
          amount := 1000000
          metadata := none
          blockHeight := none
          fee := none
          errorMessage := none })] := by
  decide

/-- C9 amended: `get_transaction_status` is effect-free except in one case —
on a `confirmed` job with a recorded `tx_hash` and an available live count it
rewrites the stored job's `confirmations` to the maximum of the stored and
live values, and the returned snapshot is that refreshed record; an unknown
id is a 404 with no store change. -/
theorem get_status_confirmations_refresh :
    (∀ (s : RStore) (id : String) (live : Option Nat) (j : RJob),
        lookupRJob s id = some j →
        (¬ (j.status = .confirmed ∧ j.txHash ≠ none) ∨ live = none) →
        (get_transaction_status s id live).1 = s ∧
        (get_transaction_status s id live).2 = some j) ∧
    (∀ (s : RStore) (id : String) (live : Option Nat) (j : RJob) (c : Nat),
        lookupRJob s id = some j →
        j.status = .confirmed → j.txHash ≠ none → live = some c →
        (get_transaction_status s id live).1 =
          updateRJob s id
            (fun _ => { j with confirmations := max j.confirmations c }) ∧
        (get_transaction_status s id live).2 =
          some { j with confirmations := max j.confirmations c }) ∧
    (∀ (s : RStore) (id : String) (live : Option Nat),
        lookupRJob s id = none →
        get_transaction_status s id live = (s, none)) := by
  refine ⟨?_, ?_, ?_⟩
  · intro s id live j hlook hcond
    unfold get_transaction_status
    rw [hlook]
    rcases hcond with hnc | hln
    · simp [hnc]
    · subst hln
      by_cases hc : j.status = .confirmed ∧ j.txHash ≠ none <;> simp [hc]
  · intro s id live j c hlook hst hth hlv
    subst hlv
    unfold get_transaction_status
    rw [hlook]
    simp [hst, hth]
  · intro s id live hlook
    unfold get_transaction_status
    rw [hlook]

/-- Witness for C9's amended theorem: an unknown id is a pure 404. -/
theorem get_status_refresh_witness :
    get_transaction_status [] "nope" (some 3) = ([], none) :=
  get_status_confirmations_refresh.2.2 [] "nope" (some 3) rfl

/-- C8 counterexample: the mock processing path of
`PaymentService.process_payment` is not deterministic in the job input — two
runs on the same job, differing only in the random draw, reach different
terminal states. -/
theorem mock_processing_depends_on_randomness :
    (process_payment_mock
        { jobId := "p1"
          status := .pending
          request := ⟨"addr_test1a", "addr_test1b", 2000000, none⟩
          createdAt := 0
          updatedAt := 0
          transactionHash := none
          errorMsg := none } (1 / 2 : ℚ) "h" 0).status = .completed ∧
    (process_payment_mock
        { jobId := "p1"
          status := .pending
          request := ⟨"addr_test1a", "addr_test1b", 2000000, none⟩
          createdAt := 0
          updatedAt := 0
          transactionHash := none
          errorMsg := none } (19 / 20 : ℚ) "h" 0).status = .failed ∧
    PStatus.completed ≠ PStatus.failed := by
  refine ⟨?_, ?_, by decide⟩ <;> norm_num [process_payment_mock]

/-- C8 amended: the mock path does use a fixed delay (2 s), but the terminal
state is a function of the random draw, not of the job alone: `completed`
exactly when the draw is below 0.9, `failed` otherwise. -/
theorem mock_processing_deterministic_in_draw :
    (∀ (j : PJob) (r : ℚ) (fh : String) (now : Nat),
        ((process_payment_mock j r fh now).status = .completed ↔
          r < 9 / 10) ∧
        ((process_payment_mock j r fh now).status = .failed ↔
          ¬ r < 9 / 10) ∧
        (process_payment_mock j r fh now).updatedAt =
          now + mockProcessingDelaySeconds) ∧
    mockProcessingDelaySeconds = 2 := by
  constructor
  · intro j r fh now
    by_cases hr : r < 9 / 10 <;> simp [process_payment_mock, hr]
  · rfl

/-- C7 counterexample: two `initiate_payment` calls in the same wall-clock
second with the same amount return the same payment id (`pay_100_500`), and
the second call overwrites the first job — after both calls the store holds a
single entry. -/
theorem payment_id_collision_counterexample :
    (initiate_payment [] 100 "a" "b" 500 (.ok "h1")).2 =
      .ok ("pay_100_500", "h1") ∧
    (initiate_payment (initiate_payment [] 100 "a" "b" 500 (.ok "h1")).1
        100 "a2" "b2" 500 (.ok "h2")).2 = .ok ("pay_100_500", "h2") ∧
    (initiate_payment (initiate_payment [] 100 "a" "b" 500 (.ok "h1")).1
        100 "a2" "b2" 500 (.ok "h2")).1.length = 1 := by
  refine ⟨rfl, rfl, ?_⟩
  decide

/-- C7 amended: uuid-based mock job ids are unique whenever the uuid parts
differ, and a mock-created job starts in `pending`; but the smart-contract
path derives its id solely from the creation second and the amount (equal
pairs collide) and starts its payment in `locked_to_contract`, not
`pending`. -/
theorem job_id_uniqueness_amended :
    (∀ h1 h2 : String, h1 ≠ h2 → mock_job_id_of h1 ≠ mock_job_id_of h2) ∧
    (∀ s req freshId now s' resp,
        send_payment_mock s req freshId now = .ok (s', resp) →
          (lookupJob s' freshId).map MockJob.status = some .pending ∧
          resp.status = .pending) ∧
    (∀ (ps : SCStore) (nowSec : Nat) (fa ta : String) (amt : Nat)
        (txh : String),
        (initiate_payment ps nowSec fa ta amt (.ok txh)).2 =
          .ok (payment_id_of nowSec amt, txh) ∧
        (lookupSCPay (initiate_payment ps nowSec fa ta amt (.ok txh)).1
            (payment_id_of nowSec amt)).map SCPayment.status =
          some "locked_to_contract") := by
  refine ⟨?_, ?_, ?_⟩
  · intro h1 h2 hne heq
    apply hne
    have hd := congrArg String.data heq
    simp only [mock_job_id_of, String.data_append] at hd
    exact congrArg String.mk (List.append_cancel_left hd)
  · intro s req freshId now s' resp h
    unfold send_payment_mock at h
    split at h
    · exact absurd h (by simp)
    · split at h
      · exact absurd h (by simp)
      · split at h
        · exact absurd h (by simp)
        · obtain ⟨h1, h2⟩ : _ ∧ _ = resp := by simpa using h
          subst h1
          subst h2
          simp [lookupJob_storeSet]
  · intro ps nowSec fa ta amt txh
    unfold initiate_payment
    simp [lookupSCPay_scstoreSet]

/-- Witness for C7's amended theorem: two distinct uuid parts give distinct
mock job ids. -/
theorem job_id_uniqueness_witness :
    mock_job_id_of "0123456789abcdef" ≠ mock_job_id_of "0123456789abcdee" :=
  job_id_uniqueness_amended.1 "0123456789abcdef" "0123456789abcdee"
    (by decide)

/-- Shape of a successful mock `send_payment`: the returned store is the old
one with the fresh `pending` job written under the fresh id. -/
theorem send_payment_mock_ok {s : MockStore} {req : PaymentReq}
    {freshId : String} {now : Nat} {s' : MockStore} {resp : MockPayResp}
    (h : send_payment_mock s req freshId now = .ok (s', resp)) :
    s' = storeSet s freshId
      { jobId := freshId
        txHash := generate_mock_tx_hash
        status := .pending
        confirmations := 0
        createdAt := now
        confirmedAt := none
        fromAddress := req.fromAddress
        toAddress := req.toAddress
        amount := req.amount
        metadata := req.metadata
        blockHeight := none
        fee := none
        smartContract := false
        contractAddress := none
        executionTxHash := none
        errorMsg := none } := by
  unfold send_payment_mock at h
  split at h
  · exact absurd h (by simp)
  · split at h
    · exact absurd h (by simp)
    · split at h
      · exact absurd h (by simp)
      · obtain ⟨h1, h2⟩ : _ ∧ _ = resp := by simpa using h
        exact h1.symm

/-- Shape of a successful smart-contract `send_payment`: the returned store
is the old one with the `locked_to_contract` job written under the payment
id. -/
theorem send_payment_smart_ok {s : MockStore} {req : PaymentReq}
    {payId txHash contractAddr : String} {now : Nat} {s' : MockStore}
    {resp : MockPayResp}
    (h : send_payment_smart s req payId txHash contractAddr now =
      .ok (s', resp)) :
    s' = storeSet s payId
      { jobId := payId
        txHash := txHash
        status := .lockedToContract
        confirmations := 0
        createdAt := now
        confirmedAt := none
        fromAddress := req.fromAddress
        toAddress := req.toAddress
        amount := req.amount
        metadata := req.metadata
        blockHeight := none
        fee := some 200000
        smartContract := true
        contractAddress := some contractAddr
        executionTxHash := none
        errorMsg := none } := by
  unfold send_payment_smart at h
  split at h
  · exact absurd h (by simp)
  · split at h
    · exact absurd h (by simp)
    · split at h
      · exact absurd h (by simp)
      · obtain ⟨h1, h2⟩ : _ ∧ _ = resp := by simpa using h
        exact h1.symm

/-- No operation on the mock store ever writes the status `submitted`. -/
theorem applyMockOp_no_submitted (s : MockStore) (op : MockOp)
    (hinv : ∀ id j, lookupJob s id = some j → j.status ≠ .submitted) :
    ∀ id j, lookupJob (applyMockOp s op) id = some j →
      j.status ≠ .submitted := by
  intro id j hl
  cases op with
  | create req freshId now =>
    rcases hsp : send_payment_mock s req freshId now with e | p
    · simp only [applyMockOp, hsp] at hl
      exact hinv id j hl
    · obtain ⟨s', resp⟩ := p
      simp only [applyMockOp, hsp] at hl
      rw [send_payment_mock_ok hsp, lookupJob_storeSet] at hl
      by_cases hid : freshId = id
      · rw [if_pos hid] at hl
        injection hl with hj
        rw [← hj]
        simp
      · rw [if_neg hid] at hl
        exact hinv id j hl
  | createSmart req payId txHash contractAddr now =>
    rcases hsp : send_payment_smart s req payId txHash contractAddr now
      with e | p
    · simp only [applyMockOp, hsp] at hl
      exact hinv id j hl
    · obtain ⟨s', resp⟩ := p
      simp only [applyMockOp, hsp] at hl
      rw [send_payment_smart_ok hsp, lookupJob_storeSet] at hl
      by_cases hid : payId = id
      · rw [if_pos hid] at hl
        injection hl with hj
        rw [← hj]
        simp
      · rw [if_neg hid] at hl
        exact hinv id j hl
  | confirmTask id0 now =>
    rcases hl0 : lookupJob s id0 with _ | j0 <;>
      simp only [applyMockOp, simulate_confirmation_process, hl0] at hl
    · exact hinv id j hl
    · rw [lookupJob_updateJob] at hl
      by_cases hid : id0 = id
      · rw [if_pos hid, hl0] at hl
        injection hl with hj
        rw [← hj]
        simp
      · rw [if_neg hid] at hl
        exact hinv id j hl
  | execTask id0 res now =>
    rcases hl0 : lookupJob s id0 with _ | j0 <;>
      simp only [applyMockOp, simulate_smart_contract_execution, hl0] at hl
    · exact hinv id j hl
    · cases res with
      | ok execHash =>
        simp only at hl
        rw [lookupJob_updateJob] at hl
        by_cases hid : id0 = id
        · rw [if_pos hid, hl0] at hl
          injection hl with hj
          rw [← hj]
          simp
        · rw [if_neg hid] at hl
          exact hinv id j hl
      | error e =>
        simp only at hl
        rw [lookupJob_updateJob] at hl
        by_cases hid : id0 = id
        · rw [if_pos hid, hl0] at hl
          injection hl with hj
          rw [← hj]
          simp
        · rw [if_neg hid] at hl
          exact hinv id j hl
  | cancel id0 =>
    rcases hl0 : lookupJob s id0 with _ | j0 <;>
      simp only [applyMockOp, cancel_job, hl0] at hl
    · exact hinv id j hl
    · by_cases hp : j0.status = .pending
      · rw [if_pos hp] at hl
        simp only at hl
        rw [lookupJob_updateJob] at hl
        by_cases hid : id0 = id
        · rw [if_pos hid, hl0] at hl
          injection hl with hj
          rw [← hj]
          simp
        · rw [if_neg hid] at hl
          exact hinv id j hl
      · rw [if_neg hp] at hl
        exact hinv id j hl

/-- The no-`submitted` invariant holds along every run. -/
theorem runMockOps_no_submitted :
    ∀ (ops : List MockOp) (s : MockStore),
      (∀ id j, lookupJob s id = some j → j.status ≠ .submitted) →
      ∀ id j, lookupJob (runMockOps s ops) id = some j →
        j.status ≠ .submitted := by
  intro ops
  induction ops with
  | nil => intro s h; exact h
  | cons op ops ih =>
    intro s h
    exact ih (applyMockOp s op) (applyMockOp_no_submitted s op h)

/-- C4: `cancel_job` on a `pending` job sets it to `cancelled` (touching no
other job); on a job already in a terminal state it reports the invalid-state
error and leaves the store exactly as it was; and the status `submitted`
never occurs in the mock store at all (so the claim's `submitted` case is
vacuous: every reachable job is `pending`, `locked_to_contract`, or
terminal). -/
theorem cancel_pending_only_and_terminal_unchanged :
    (∀ (s : MockStore) (id : String) (j : MockJob),
        lookupJob s id = some j → j.status = .pending →
          (cancel_job s id).2 = none ∧
          lookupJob (cancel_job s id).1 id =
            some { j with status := .cancelled } ∧
          ∀ id', id ≠ id' →
            lookupJob (cancel_job s id).1 id' = lookupJob s id') ∧
    (∀ (s : MockStore) (id : String) (j : MockJob),
        lookupJob s id = some j → j.status.terminal = true →
          (cancel_job s id).1 = s ∧
          (cancel_job s id).2 = some (.invalidState j.status)) ∧
    (∀ (ops : List MockOp) (s : MockStore),
        (∀ id j, lookupJob s id = some j → j.status ≠ .submitted) →
        ∀ id j, lookupJob (runMockOps s ops) id = some j →
          j.status ≠ .submitted) := by
  refine ⟨?_, ?_, runMockOps_no_submitted⟩
  · intro s id j hlook hp
    refine ⟨?_, ?_, ?_⟩
    · simp [cancel_job, hlook, hp]
    · simp [cancel_job, hlook, hp, lookupJob_updateJob]
    · intro id' hne
      simp [cancel_job, hlook, hp, lookupJob_updateJob, hne]
  · intro s id j hlook hterm
    have hne : ¬ j.status = .pending := by
      intro hp
      rw [hp] at hterm
      exact absurd hterm (by decide)
    unfold cancel_job
    rw [hlook]
    simp [hne]

/-- Witness for C4: cancelling a freshly created pending job succeeds, and
cancelling it again reports the invalid-state error on the unchanged store. -/
theorem cancel_pending_witness :
    (cancel_job
        [("j1",
          { jobId := "j1"
            txHash := generate_mock_tx_hash
            status := .pending
            confirmations := 0
            createdAt := 0
            confirmedAt := none
            fromAddress := "addr_test1a"
            toAddress := "addr_test1b"
            amount := 1000000
            metadata := none
            blockHeight := none
            fee := none
            smartContract := false
            contractAddress := none
            executionTxHash := none
            errorMsg := none })] "j1").2 = none ∧
      lookupJob
        (cancel_job
          [("j1",
            { jobId := "j1"
              txHash := generate_mock_tx_hash
              status := .pending
              confirmations := 0
              createdAt := 0
              confirmedAt := none
              fromAddress := "addr_test1a"
              toAddress := "addr_test1b"
              amount := 1000000
              metadata := none
              blockHeight := none
              fee := none
              smartContract := false
              contractAddress := none
              executionTxHash := none
              errorMsg := none })] "j1").1 "j1" =
        some
          { jobId := "j1"
            txHash := generate_mock_tx_hash
            status := .cancelled
            confirmations := 0
            createdAt := 0
            confirmedAt := none
            fromAddress := "addr_test1a"
            toAddress := "addr_test1b"
            amount := 1000000
            metadata := none
            blockHeight := none
            fee := none
            smartContract := false
            contractAddress := none
            executionTxHash := none
            errorMsg := none } ∧
      ∀ id', "j1" ≠ id' →
        lookupJob
          (cancel_job
            [("j1",
              { jobId := "j1"
                txHash := generate_mock_tx_hash
                status := .pending
                confirmations := 0
                createdAt := 0
                confirmedAt := none
                fromAddress := "addr_test1a"
                toAddress := "addr_test1b"
                amount := 1000000
                metadata := none
                blockHeight := none
                fee := none
                smartContract := false
                contractAddress := none
                executionTxHash := none
                errorMsg := none })] "j1").1 id' =
          lookupJob
            [("j1",
              { jobId := "j1"
                txHash := generate_mock_tx_hash
                status := .pending
                confirmations := 0
                createdAt := 0
                confirmedAt := none
                fromAddress := "addr_test1a"
                toAddress := "addr_test1b"
                amount := 1000000
                metadata := none
                blockHeight := none
                fee := none
                smartContract := false
                contractAddress := none
                executionTxHash := none
                errorMsg := none })] id' :=
  cancel_pending_only_and_terminal_unchanged.1 _ "j1"
    { jobId := "j1"
      txHash := generate_mock_tx_hash
      status := .pending
      confirmations := 0
      createdAt := 0
      confirmedAt := none
      fromAddress := "addr_test1a"
      toAddress := "addr_test1b"
      amount := 1000000
      metadata := none
      blockHeight := none
      fee := none
      smartContract := false
      contractAddress := none
      executionTxHash := none
      errorMsg := none } rfl rfl

theorem optFwd_refl : ∀ o : Option MStatus, optFwd o o
  | none => trivial
  | some _ => Or.inl rfl

theorem MStatus.fwd_trans {a b c : MStatus} (h1 : a.fwd b) (h2 : b.fwd c) :
    a.fwd c := by
  rcases h1 with rfl | ⟨ht, hr⟩
  · exact h2
  · rcases h2 with rfl | ⟨ht2, hr2⟩
    · exact Or.inr ⟨ht, hr⟩
    · exact Or.inr ⟨ht, le_trans hr hr2⟩

theorem optFwd_trans {a b c : Option MStatus} (h1 : optFwd a b)
    (h2 : optFwd b c) : optFwd a c := by
  cases a with
  | none => trivial
  | some x =>
    cases b with
    | none => exact h1.elim
    | some y =>
      cases c with
      | none => exact h2.elim
      | some z => exact MStatus.fwd_trans h1 h2

/-- Any non-terminal status precedes any top-rank status. -/
theorem MStatus.fwd_of_nonterminal {a b : MStatus} (ha : a.terminal = false)
    (hb : b.rank = 2) : a.fwd b :=
  Or.inr ⟨ha, by rw [hb]; cases a <;> decide⟩

/-- One operation moves every job slot forward in the state machine's order,
provided a creation uses a fresh id and a background task does not fire on a
terminal job. -/
theorem applyMockOp_fwd (s : MockStore) (op : MockOp)
    (hok : okMockOp s op = true) :
    ∀ id, optFwd (statusAt s id) (statusAt (applyMockOp s op) id) := by
  intro id
  cases op with
  | create req freshId now =>
    rcases hsp : send_payment_mock s req freshId now with e | p
    · simp only [applyMockOp, hsp]
      exact optFwd_refl _
    · obtain ⟨s', resp⟩ := p
      simp only [okMockOp, Option.isNone_iff_eq_none] at hok
      by_cases hid : freshId = id
      · subst hid
        have h1 : statusAt s freshId = none := by simp [statusAt, hok]
        rw [h1]
        trivial
      · have h2 : statusAt (applyMockOp s (.create req freshId now)) id =
            statusAt s id := by
          simp only [applyMockOp, hsp]
          rw [send_payment_mock_ok hsp]
          simp only [statusAt, lookupJob_storeSet, if_neg hid]
        rw [h2]
        exact optFwd_refl _
  | createSmart req payId txHash contractAddr now =>
    rcases hsp : send_payment_smart s req payId txHash contractAddr now
      with e | p
    · simp only [applyMockOp, hsp]
      exact optFwd_refl _
    · obtain ⟨s', resp⟩ := p
      simp only [okMockOp, Option.isNone_iff_eq_none] at hok
      by_cases hid : payId = id
      · subst hid
        have h1 : statusAt s payId = none := by simp [statusAt, hok]
        rw [h1]
        trivial
      · have h2 : statusAt
            (applyMockOp s (.createSmart req payId txHash contractAddr now))
              id = statusAt s id := by
          simp only [applyMockOp, hsp]
          rw [send_payment_smart_ok hsp]
          simp only [statusAt, lookupJob_storeSet, if_neg hid]
        rw [h2]
        exact optFwd_refl _
  | confirmTask id0 now =>
    rcases hl0 : lookupJob s id0 with _ | j0
    · simp only [applyMockOp, simulate_confirmation_process, hl0]
      exact optFwd_refl _
    · simp only [okMockOp, hl0] at hok
      have hterm : j0.status.terminal = false := by simpa using hok
      by_cases hid : id0 = id
      · subst hid
        have h1 : statusAt s id0 = some j0.status := by simp [statusAt, hl0]
        have h2 : statusAt (applyMockOp s (.confirmTask id0 now)) id0 =
            some .confirmed := by
          simp [applyMockOp, simulate_confirmation_process, statusAt, hl0,
            lookupJob_updateJob]
        rw [h1, h2]
        exact MStatus.fwd_of_nonterminal hterm rfl
      · have h2 : statusAt (applyMockOp s (.confirmTask id0 now)) id =
            statusAt s id := by
          simp [applyMockOp, simulate_confirmation_process, statusAt, hl0,
            lookupJob_updateJob, hid]
        rw [h2]
        exact optFwd_refl _
  | execTask id0 res now =>
    rcases hl0 : lookupJob s id0 with _ | j0
    · simp only [applyMockOp, simulate_smart_contract_execution, hl0]
      exact optFwd_refl _
    · simp only [okMockOp, hl0] at hok
      have hterm : j0.status.terminal = false := by simpa using hok
      cases res with
      | ok execHash =>
        by_cases hid : id0 = id
        · subst hid
          have h1 : statusAt s id0 = some j0.status := by
            simp [statusAt, hl0]
          have h2 : statusAt (applyMockOp s (.execTask id0 (.ok execHash) now))
              id0 = some .confirmed := by
            simp [applyMockOp, simulate_smart_contract_execution, statusAt,
              hl0, lookupJob_updateJob]
          rw [h1, h2]
          exact MStatus.fwd_of_nonterminal hterm rfl
        · have h2 : statusAt (applyMockOp s (.execTask id0 (.ok execHash) now))
              id = statusAt s id := by
            simp [applyMockOp, simulate_smart_contract_execution, statusAt,
              hl0, lookupJob_updateJob, hid]
          rw [h2]
          exact optFwd_refl _
      | error e =>
        by_cases hid : id0 = id
        · subst hid
          have h1 : statusAt s id0 = some j0.status := by
            simp [statusAt, hl0]
          have h2 : statusAt (applyMockOp s (.execTask id0 (.error e) now))
              id0 = some .failed := by
            simp [applyMockOp, simulate_smart_contract_execution, statusAt,
              hl0, lookupJob_updateJob]
          rw [h1, h2]
          exact MStatus.fwd_of_nonterminal hterm rfl
        · have h2 : statusAt (applyMockOp s (.execTask id0 (.error e) now))
              id = statusAt s id := by
            simp [applyMockOp, simulate_smart_contract_execution, statusAt,
              hl0, lookupJob_updateJob, hid]
          rw [h2]
          exact optFwd_refl _
  | cancel id0 =>
    rcases hl0 : lookupJob s id0 with _ | j0
    · simp only [applyMockOp, cancel_job, hl0]
      exact optFwd_refl _
    · by_cases hp : j0.status = .pending
      · by_cases hid : id0 = id
        · subst hid
          have h1 : statusAt s id0 = some j0.status := by
            simp [statusAt, hl0]
          have h2 : statusAt (applyMockOp s (.cancel id0)) id0 =
              some .cancelled := by
            simp [applyMockOp, cancel_job, statusAt, hl0, hp,
              lookupJob_updateJob]
          rw [h1, h2, hp]
          decide
        · have h2 : statusAt (applyMockOp s (.cancel id0)) id =
              statusAt s id := by
            simp [applyMockOp, cancel_job, statusAt, hl0, hp,
              lookupJob_updateJob, hid]
          rw [h2]
          exact optFwd_refl _
      · simp only [applyMockOp, cancel_job, hl0, if_neg hp]
        exact optFwd_refl _

/-- C1 counterexample: create a job, cancel it (a terminal state), then let
the already-scheduled confirmation task fire — the job regresses from
`cancelled` back to `confirmed`, a transition outside the state machine's
forward order, mutating a terminal job. -/
theorem cancelled_job_revived_counterexample :
    statusAt
        (runMockOps []
          [.create ⟨"addr_test1a", "addr_test1b", 1000000, none⟩ "j1" 0,
           .cancel "j1"]) "j1" = some .cancelled ∧
    MStatus.cancelled.terminal = true ∧
    statusAt
        (runMockOps []
          [.create ⟨"addr_test1a", "addr_test1b", 1000000, none⟩ "j1" 0,
           .cancel "j1",
           .confirmTask "j1" 40]) "j1" = some .confirmed ∧
    ¬ MStatus.fwd .cancelled .confirmed := by
  decide

/-- C1 amended: along any run in which creations use fresh ids and no
background task (confirmation or smart-contract execution) fires on a job
already in a terminal state, every job's status only moves forward in the
state machine's partial order; the unconditional overwrite performed by a
task firing after cancellation is the only violation. -/
theorem statuses_move_forward_without_late_tasks :
    ∀ (ops : List MockOp) (s : MockStore), okMockTrace s ops = true →
      ∀ id, optFwd (statusAt s id) (statusAt (runMockOps s ops) id) := by
  intro ops
  induction ops with
  | nil =>
    intro s h id
    exact optFwd_refl _
  | cons op ops ih =>
    intro s h id
    simp only [okMockTrace, Bool.and_eq_true] at h
    exact optFwd_trans (applyMockOp_fwd s op h.1 id)
      (ih (applyMockOp s op) h.2 id)

/-- Witness for C1's amended theorem: a create-then-confirm run moves the job
forward. -/
theorem statuses_move_forward_witness :
    optFwd (statusAt [] "j1")
      (statusAt
        (runMockOps []
          [.create ⟨"addr_test1a", "addr_test1b", 1000000, none⟩ "j1" 0,
           .confirmTask "j1" 30]) "j1") :=
  statuses_move_forward_without_late_tasks
    [.create ⟨"addr_test1a", "addr_test1b", 1000000, none⟩ "j1" 0,
     .confirmTask "j1" 30] [] (by decide) "j1"
